import Mathlib

/-!
# Verification of the Robo robo-advisory core

Shallow embedding of the portfolio construction, drift analysis, market
classification, recommendation and rebalance-simulation logic of the
repository (`portfolio_manager.py`, `rebalancer.py`), together with
theorems settling the frozen claims about it.

Numbers are embedded as exact rationals; the square roots used for
portfolio risk live in `ℝ`.  Randomness (the process-run string hash,
the seeded normal draws of numpy, the uniform fund choice) and string
formatting are abstracted as components of an `Env` record: within one
process run they are fixed deterministic functions, which is exactly
what the determinism claims are about.  Fallible paths (a `KeyError` on
an unknown risk tier, a `ZeroDivisionError` on a degenerate total) are
embedded with `Except`/`Option`.
-/

namespace Robo

/-- Python `pat in s` on strings is substring containment; `listIsPre`
is the prefix test on character lists used to define it. -/
def listIsPre : List Char → List Char → Bool
  | [], _ => true
  | _ :: _, [] => false
  | a :: as, b :: bs => a == b && listIsPre as bs

/-- Substring occurrence test on character lists. -/
def hasSubList (pat : List Char) : List Char → Bool
  | [] => pat.isEmpty
  | c :: rest => listIsPre pat (c :: rest) || hasSubList pat rest

/-- Python `pat in s` for strings. -/
def strContains (s pat : String) : Bool :=
  hasSubList pat.toList s.toList

/-! ## Static catalogs (`PortfolioManager.__init__`, `AIRebalancer`) -/

/-- One entry of `PortfolioManager.asset_classes`: expected annual
return (%), annual risk (%), and the per-risk-tier target allocation
percentages. -/
structure AssetDetail where
  ret : ℚ
  risk : ℚ
  alloc : List (String × ℚ)
deriving Repr, DecidableEq

/-- `PortfolioManager.asset_classes` from `portfolio_manager.py`. -/
def asset_classes : List (String × AssetDetail) :=
  [("Large Cap Equity", ⟨12, 15, [("Low", 20), ("Medium", 35), ("High", 50)]⟩),
   ("Mid Cap Equity", ⟨15, 20, [("Low", 5), ("Medium", 15), ("High", 25)]⟩),
   ("Small Cap Equity", ⟨18, 25, [("Low", 0), ("Medium", 5), ("High", 15)]⟩),
   ("Debt Funds", ⟨7, 3, [("Low", 60), ("Medium", 35), ("High", 5)]⟩),
   ("Gold ETF", ⟨8, 12, [("Low", 10), ("Medium", 5), ("High", 3)]⟩),
   ("International Funds", ⟨10, 18, [("Low", 5), ("Medium", 5), ("High", 2)]⟩)]

/-- `PortfolioManager.sample_funds`. -/
def sample_funds : List (String × List String) :=
  [("Large Cap Equity", ["HDFC Top 100 Fund", "ICICI Pru Bluechip Fund", "SBI Large Cap Fund"]),
   ("Mid Cap Equity", ["HDFC Mid-Cap Opportunities Fund", "Axis Midcap Fund", "Kotak Emerging Equity"]),
   ("Small Cap Equity", ["SBI Small Cap Fund", "HDFC Small Cap Fund", "Axis Small Cap Fund"]),
   ("Debt Funds", ["HDFC Corporate Bond Fund", "ICICI Pru Corporate Bond", "Axis Corporate Debt"]),
   ("Gold ETF", ["HDFC Gold ETF", "SBI Gold ETF", "ICICI Pru Gold ETF"]),
   ("International Funds", ["Motilal Oswal S&P 500", "HDFC Global Fund", "ICICI Pru US Bluechip"])]

/-- Return/risk pair of `AIRebalancer._get_asset_class_details`. -/
structure AssetRR where
  ret : ℚ
  risk : ℚ
deriving Repr, DecidableEq

/-- `AIRebalancer._get_asset_class_details` from `rebalancer.py`. -/
def asset_class_details : List (String × AssetRR) :=
  [("Large Cap Equity", ⟨12, 15⟩),
   ("Mid Cap Equity", ⟨15, 20⟩),
   ("Small Cap Equity", ⟨18, 25⟩),
   ("Debt Funds", ⟨7, 3⟩),
   ("Gold ETF", ⟨8, 12⟩),
   ("International Funds", ⟨10, 18⟩)]

/-- Row index of `AIRebalancer._get_correlation_matrix` (the DataFrame
index). -/
def correlation_assets : List String :=
  ["Large Cap Equity", "Mid Cap Equity", "Small Cap Equity",
   "Debt Funds", "Gold ETF", "International Funds"]

/-- Column data of `AIRebalancer._get_correlation_matrix` (dict key =
column label, list = entries down the row index). -/
def correlation_data : List (String × List ℚ) :=
  [("Large Cap Equity", [1, 85/100, 75/100, 1/10, 2/10, 7/10]),
   ("Mid Cap Equity", [85/100, 1, 9/10, 5/100, 15/100, 6/10]),
   ("Small Cap Equity", [75/100, 9/10, 1, 0, 1/10, 5/10]),
   ("Debt Funds", [1/10, 5/100, 0, 1, 3/10, 2/10]),
   ("Gold ETF", [2/10, 15/100, 1/10, 3/10, 1, 25/100]),
   ("International Funds", [7/10, 6/10, 5/10, 2/10, 25/100, 1])]

/-- `correlation_matrix.loc[a1, a2]` guarded by the membership test of
`_calculate_portfolio_risk`: row `a1` must be in the index and column
`a2` in the columns, otherwise the default correlation 0.5 is used. -/
def correlation_of (a1 a2 : String) : ℚ :=
  if a1 ∈ correlation_assets ∧ (correlation_data.lookup a2).isSome then
    ((correlation_data.lookup a2).getD []).getD (correlation_assets.indexOf a1) (1/2)
  else 1/2

/-! ## Data model -/

/-- The fields of `client_data` read by `create_portfolio`. -/
structure ClientData where
  name : String
  risk_appetite : String
  investment_amount : ℚ
deriving Repr, DecidableEq

/-- One holdings-row dict built by `create_portfolio`. -/
structure Holding where
  asset_class : String
  fund_name : String
  allocation_pct : ℚ
  amount : ℚ
  units : ℚ
  current_nav : ℚ
deriving Repr, DecidableEq

/-- The portfolio dict built by `create_portfolio`.  The two square
roots (`portfolio_risk`, `sharpe_ratio`) are real-valued. -/
structure Portfolio where
  client_id : String
  allocation : List (String × ℚ)
  holdings : List Holding
  current_value : ℚ
  expected_return : ℚ
  portfolio_risk : ℝ
  risk_score : ℚ
  sharpe_ratio : ℝ
  returns : ℚ
  created_date : ℤ

/-- The market indicator snapshot assembled by
`_analyze_market_conditions` before classification. -/
structure MarketData where
  volatility : ℚ
  momentum : ℚ
  trend : String
  correlation : ℚ
deriving Repr, DecidableEq

/-- Process-run environment: the pieces of the Python runtime the code
consumes.  `pyhash` is `hash` on strings (fixed within a run),
`normal` is the numpy normal sampler as a function of the seed passed
to `np.random.seed`, the mean, the standard deviation and the sample
count, `choice` is `np.random.choice`, `now` is `datetime.now()` in
days, `market` and `data_source` are the indicator snapshot produced
by the (live-or-simulated) data path of `_analyze_market_conditions`,
and the `fmt`s are Python string formatting. -/
structure Env where
  pyhash : String → ℕ
  normal : ℕ → ℚ → ℝ → ℕ → List ℚ
  choice : List String → String
  now : ℤ
  market : MarketData
  data_source : String
  fmt_money : ℚ → String
  fmt_pct : ℚ → String
  fmt_conf : ℚ → String

/-! ## PortfolioBuilder (`portfolio_manager.py`) -/

/-- `round(x, 2)` used for unit counts.  Python rounds half to even
while `round` here rounds half up; the two differ only on exact half
cents and no claim depends on the units field. -/
def round2 (x : ℚ) : ℚ := round (x * 100) / 100

/-- The allocation loop of `create_portfolio`:
`allocation[asset_class] = details['allocation'][risk_appetite]`.
An unknown tier raises a `KeyError` on the first asset class, embedded
as `Except.error`. -/
def allocation_for (catalog : List (String × AssetDetail)) (tier : String) :
    Except String (List (String × ℚ)) :=
  match catalog with
  | [] => .ok []
  | ad :: rest =>
    match ad.2.alloc.lookup tier with
    | some v => (allocation_for rest tier).map (fun l => (ad.1, v) :: l)
    | none => .error "ValidationError: unknown risk tier"

/-- `PortfolioManager._calculate_risk_score`. -/
def calculate_risk_score (tier : String) : ℚ :=
  ([("Low", (3 : ℚ)), ("Medium", 6), ("High", 17/2)].lookup tier).getD 5

/-- `PortfolioManager.create_portfolio`, parameterized over the
instance catalog `self.asset_classes` (the default is
`asset_classes`). -/
noncomputable def create_portfolio (env : Env) (catalog : List (String × AssetDetail))
    (c : ClientData) : Except String Portfolio :=
  match allocation_for catalog c.risk_appetite with
  | .error e => .error e
  | .ok allocation =>
    let expected_return : ℚ :=
      (catalog.map (fun ad => ((allocation.lookup ad.1).getD 0) / 100 * ad.2.ret)).sum
    let risk_sq : ℚ :=
      (catalog.map (fun ad => (((allocation.lookup ad.1).getD 0) / 100 * ad.2.risk) ^ 2)).sum
    let portfolio_risk : ℝ := Real.sqrt (risk_sq : ℝ)
    let holdings : List Holding :=
      (allocation.filter (fun av => 0 < av.2)).map (fun av =>
        let amount := av.2 / 100 * c.investment_amount
        { asset_class := av.1
          fund_name := env.choice ((sample_funds.lookup av.1).getD [])
          allocation_pct := av.2
          amount := amount
          units := round2 (amount / 100)
          current_nav := 100 })
    .ok { client_id := c.name
          allocation := allocation
          holdings := holdings
          current_value := c.investment_amount
          expected_return := expected_return
          portfolio_risk := portfolio_risk
          risk_score := calculate_risk_score c.risk_appetite
          sharpe_ratio := if 0 < portfolio_risk then (expected_return : ℝ) / portfolio_risk else 0
          returns := 0
          created_date := env.now }

/-! ## MarketConditionClassifier (`rebalancer.py`, `_analyze_market_conditions`) -/

/-- The dict returned by `_analyze_market_conditions`. -/
structure MarketCondition where
  condition : String
  data : MarketData
  confidence : ℚ
  data_source : String
deriving Repr, DecidableEq

/-- Classification and confidence tail of `_analyze_market_conditions`
(lines 124-149): the indicator snapshot `md` is whatever the live or
simulated data path produced, abstracted as an input. -/
def analyze_market_conditions (md : MarketData) (data_source : String) : MarketCondition :=
  let market_data : MarketData := { md with correlation := |md.correlation| }
  let condition :=
    if 25 < market_data.volatility then "volatile_market"
    else if 3/100 < market_data.momentum ∧ market_data.trend = "bullish" then "bull_market"
    else if market_data.momentum < -(3/100) ∧ market_data.trend = "bearish" then "bear_market"
    else "stable_market"
  let confidence : ℚ :=
    min (95/100) (7/10 + |md.momentum| * 5 + if md.trend ≠ "sideways" then 1/10 else 0)
  { condition := condition
    data := market_data
    confidence := confidence
    data_source := data_source }

/-! ## DriftAnalyzer (`rebalancer.py`, `_analyze_allocation_drift`) -/

/-- One value of the drift-analysis dict. -/
structure DriftInfo where
  target_percentage : ℚ
  current_percentage : ℚ
  drift_percentage : ℚ
  drift_amount : ℚ
deriving Repr, DecidableEq

/-- `(datetime.now() - portfolio['created_date']).days`, floored at 1. -/
def days_since_creation (now created : ℤ) : ℤ := max 1 (now - created)

/-- `hash(holding['Fund Name']) % 2**32`, the seed passed to
`np.random.seed` before drawing the daily-return series. -/
def fund_seed (env : Env) (fund_name : String) : ℕ := env.pyhash fund_name % 2 ^ 32

/-- `asset_details.get(asset_class, {}).get('return', 8.0) / 365 / 100`. -/
def expected_daily_return (asset_class : String) : ℚ :=
  ((asset_class_details.lookup asset_class).map AssetRR.ret).getD 8 / 365 / 100

/-- `asset_details.get(asset_class, {}).get('risk', 10.0) / np.sqrt(365) / 100`. -/
noncomputable def expected_daily_volatility (asset_class : String) : ℝ :=
  ((((asset_class_details.lookup asset_class).map AssetRR.risk).getD 10 : ℚ) : ℝ)
    / Real.sqrt 365 / 100

/-- `np.random.normal(expected_daily_return, expected_daily_volatility,
days)` after `np.random.seed(hash(fund_name) % 2**32)`. -/
noncomputable def daily_returns_of (env : Env) (h : Holding) (days : ℕ) : List ℚ :=
  env.normal (fund_seed env h.fund_name)
    (expected_daily_return h.asset_class)
    (expected_daily_volatility h.asset_class)
    days

/-- `cumulative_return = np.prod(1 + daily_returns) - 1`. -/
noncomputable def holding_cumulative_return (env : Env) (h : Holding) (days : ℕ) : ℚ :=
  ((daily_returns_of env h days).map (fun r => 1 + r)).prod - 1

/-- `current_value = original_amount * (1 + cumulative_return)`. -/
noncomputable def holding_current_value (env : Env) (h : Holding) (days : ℕ) : ℚ :=
  h.amount * (1 + holding_cumulative_return env h days)

/-- `AIRebalancer._analyze_allocation_drift`.  Returns the drift dict
(as an association list in target-allocation order) together with the
updated portfolio (`portfolio['current_value'] = total_current_value`).
When the holdings are non-empty but the total current value is zero the
percentage conversion divides by zero (`ZeroDivisionError`), embedded
as `none`. -/
noncomputable def analyze_allocation_drift (env : Env) (p : Portfolio) :
    Option (List (String × DriftInfo) × Portfolio) :=
  let days := (days_since_creation env.now p.created_date).toNat
  let values : List (String × ℚ) :=
    p.holdings.map (fun h => (h.asset_class, holding_current_value env h days))
  let total : ℚ := (values.map (fun v => v.2)).sum
  if p.holdings ≠ [] ∧ total = 0 then none
  else
    let current_pct : String → ℚ := fun a =>
      ((values.filter (fun v => v.1 == a)).map (fun v => v.2)).sum / total * 100
    let report : List (String × DriftInfo) :=
      p.allocation.map (fun tp =>
        let cur := current_pct tp.1
        (tp.1, { target_percentage := tp.2
                 current_percentage := cur
                 drift_percentage := cur - tp.2
                 drift_amount := (cur - tp.2) / 100 * total }))
    some (report, { p with current_value := total })

/-- The portfolio object as left behind by `_analyze_allocation_drift`:
updated on success, untouched when the call raises. -/
noncomputable def drift_post (env : Env) (p : Portfolio) : Portfolio :=
  ((analyze_allocation_drift env p).map (fun dr => dr.2)).getD p

/-! ## RecommendationEngine (`rebalancer.py`) -/

/-- A recommendation dict. -/
structure Recommendation where
  asset : String
  action : String
  quantity : String
  percentage : String
  reason : String
  priority : String
  market_factor : String
deriving Repr, DecidableEq

/-- `self.rebalancing_threshold`. -/
def rebalancing_threshold : ℚ := 5

/-- `AIRebalancer._generate_recommendation`. -/
def generate_recommendation (env : Env) (asset_class : String) (drift_info : DriftInfo)
    (market_condition : MarketCondition) : Recommendation :=
  let drift_pct := drift_info.drift_percentage
  let drift_amount := |drift_info.drift_amount|
  let action :=
    if rebalancing_threshold < drift_pct then "SELL"
    else if drift_pct < -rebalancing_threshold then "BUY"
    else "HOLD"
  let base_reason :=
    if rebalancing_threshold < drift_pct then
      "Overweight by " ++ env.fmt_pct drift_pct ++ "% due to market appreciation"
    else if drift_pct < -rebalancing_threshold then
      "Underweight by " ++ env.fmt_pct |drift_pct| ++ "% due to market decline"
    else "Within acceptable allocation range"
  let reason := base_reason ++
    (if market_condition.condition ≠ "stable_market" then
      " | Market condition: " ++ market_condition.condition
    else "")
  { asset := asset_class
    action := action
    quantity := "₹" ++ env.fmt_money drift_amount
    percentage := env.fmt_pct |drift_pct| ++ "%"
    reason := reason
    priority := if 10 < |drift_pct| then "High" else "Medium"
    market_factor := market_condition.condition }

/-- `AIRebalancer._get_market_based_recommendations`. -/
def market_based_recommendations (env : Env) (market_condition : MarketCondition) :
    List Recommendation :=
  let condition := market_condition.condition
  let confidence := market_condition.confidence
  if condition = "bull_market" ∧ 8/10 < confidence then
    [{ asset := "Equity Allocation", action := "INCREASE", quantity := "5%", percentage := "5%"
       reason := "Bull market detected with " ++ env.fmt_conf confidence ++
         " confidence - consider increasing equity exposure"
       priority := "Medium", market_factor := condition }]
  else if condition = "bear_market" ∧ 8/10 < confidence then
    [{ asset := "Debt Allocation", action := "INCREASE", quantity := "10%", percentage := "10%"
       reason := "Bear market detected with " ++ env.fmt_conf confidence ++
         " confidence - consider defensive positioning"
       priority := "High", market_factor := condition }]
  else if condition = "volatile_market" then
    [{ asset := "Gold ETF", action := "INCREASE", quantity := "3%", percentage := "3%"
       reason := "High volatility detected - consider increasing gold allocation for stability"
       priority := "Medium", market_factor := condition }]
  else []

/-- `AIRebalancer.get_rebalancing_recommendations`: drift-threshold
recommendations followed by the market-based ones.  Propagates the
drift analyzer's failure. -/
noncomputable def get_rebalancing_recommendations (env : Env) (p : Portfolio) :
    Option (List Recommendation) :=
  let market_condition := analyze_market_conditions env.market env.data_source
  (analyze_allocation_drift env p).map (fun dr =>
    ((dr.1.filter (fun ai => rebalancing_threshold < |ai.2.drift_percentage|)).map
      (fun ai => generate_recommendation env ai.1 ai.2 market_condition))
    ++ market_based_recommendations env market_condition)

/-! ## RebalanceSimulator (`rebalancer.py`) -/

/-- Per-asset transaction cost rate of `simulate_rebalancing_impact`:
0.1% for names containing "Equity", 0.05% for "Debt", 0.15% for
"International", else 0.1%. -/
def cost_rate (asset : String) : ℚ :=
  if strContains asset "Equity" then 1/1000
  else if strContains asset "Debt" then 1/2000
  else if strContains asset "International" then 3/2000
  else 1/1000

/-- Double sum of `AIRebalancer._calculate_portfolio_risk` before the
square root: weights and risks as fractions, correlation from the
matrix lookup (0.5 default), pairs outside `asset_class_details`
contribute nothing. -/
def portfolio_variance (allocation : List (String × ℚ)) : ℚ :=
  (allocation.map (fun a1 =>
    (allocation.map (fun a2 =>
      match asset_class_details.lookup a1.1, asset_class_details.lookup a2.1 with
      | some d1, some d2 =>
        ((allocation.lookup a1.1).getD 0 / 100) * ((allocation.lookup a2.1).getD 0 / 100) *
          (d1.risk / 100) * (d2.risk / 100) * correlation_of a1.1 a2.1
      | _, _ => 0)).sum)).sum

/-- `AIRebalancer._calculate_portfolio_risk`:
`np.sqrt(portfolio_variance) * 100`. -/
noncomputable def calculate_portfolio_risk (allocation : List (String × ℚ)) : ℝ :=
  Real.sqrt ((portfolio_variance allocation : ℚ) : ℝ) * 100

/-- Weighted expected return of an allocation mapping, with the 8.0
default for asset classes missing from `asset_class_details`. -/
def expected_return_of (allocation : List (String × ℚ)) : ℚ :=
  (allocation.map (fun a =>
    ((allocation.lookup a.1).getD 0 / 100) *
      (((asset_class_details.lookup a.1).map AssetRR.ret).getD 8))).sum

/-- `risk_free_rate = 6.0`. -/
def risk_free_rate : ℚ := 6

/-- The dict returned by `simulate_rebalancing_impact`. -/
structure Impact where
  transaction_cost : ℚ
  current_return : ℚ
  new_return : ℚ
  return_impact : ℚ
  current_risk : ℝ
  new_risk : ℝ
  risk_impact : ℝ
  current_sharpe : ℝ
  new_sharpe : ℝ
  sharpe_impact : ℝ

/-- `AIRebalancer.simulate_rebalancing_impact`.  Runs the drift
analysis first (which refreshes `portfolio['current_value']`), then
iterates the PROPOSED allocation keys to sum transaction costs, and
computes before/after return, correlated risk and Sharpe. -/
noncomputable def simulate_rebalancing_impact (env : Env) (p : Portfolio)
    (proposed : List (String × ℚ)) : Option Impact :=
  (analyze_allocation_drift env p).map (fun dr =>
    let current_allocation : List (String × ℚ) :=
      dr.1.map (fun ai => (ai.1, ai.2.current_percentage))
    let portfolio_value : ℚ := dr.2.current_value
    let transaction_cost : ℚ :=
      (proposed.map (fun pr =>
        let change_pct :=
          |(proposed.lookup pr.1).getD 0 - (current_allocation.lookup pr.1).getD 0|
        let change_amount := change_pct / 100 * portfolio_value
        change_amount * cost_rate pr.1)).sum
    let new_return := expected_return_of proposed
    let new_risk := calculate_portfolio_risk proposed
    let current_return := expected_return_of current_allocation
    let current_risk := calculate_portfolio_risk current_allocation
    let current_sharpe : ℝ :=
      if 0 < current_risk then ((current_return : ℝ) - (risk_free_rate : ℚ)) / current_risk else 0
    let new_sharpe : ℝ :=
      if 0 < new_risk then ((new_return : ℝ) - (risk_free_rate : ℚ)) / new_risk else 0
    { transaction_cost := transaction_cost
      current_return := current_return
      new_return := new_return
      return_impact := new_return - current_return
      current_risk := current_risk
      new_risk := new_risk
      risk_impact := new_risk - current_risk
      current_sharpe := current_sharpe
      new_sharpe := new_sharpe
      sharpe_impact := new_sharpe - current_sharpe })

/-- The outlook adjustment triple of `calculate_optimal_allocation`. -/
structure OutlookAdj where
  equity : ℚ
  debt : ℚ
  gold : ℚ
deriving Repr, DecidableEq

/-- `risk_factors` of `calculate_optimal_allocation`. -/
def risk_factors : List (String × ℚ) := [("Low", 8/10), ("Medium", 1), ("High", 12/10)]

/-- `outlook_adjustments` of `calculate_optimal_allocation`. -/
def outlook_adjustments : List (String × OutlookAdj) :=
  [("bullish", ⟨5, -3, -2⟩), ("bearish", ⟨-8, 5, 3⟩), ("neutral", ⟨0, 0, 0⟩)]

/-- `AIRebalancer.calculate_optimal_allocation`: substring-keyed
adjustments, clamp to [0,100], renormalize when the clamped total is
not 100.  A zero clamped total makes the renormalization divide by
zero (`ZeroDivisionError`), embedded as `none`. -/
def calculate_optimal_allocation (p : Portfolio) (risk_tolerance market_outlook : String) :
    Option (List (String × ℚ)) :=
  let risk_factor := (risk_factors.lookup risk_tolerance).getD 1
  let adjustments := (outlook_adjustments.lookup market_outlook).getD ⟨0, 0, 0⟩
  let optimal : List (String × ℚ) := p.allocation.map (fun ab =>
    let adjustment :=
      if strContains ab.1 "Equity" then adjustments.equity * risk_factor
      else if strContains ab.1 "Debt" then adjustments.debt
      else if strContains ab.1 "Gold" then adjustments.gold
      else 0
    (ab.1, max 0 (min 100 (ab.2 + adjustment))))
  let total : ℚ := (optimal.map (fun av => av.2)).sum
  if total = 100 then some optimal
  else if total = 0 then none
  else some (optimal.map (fun av => (av.1, av.2 / total * 100)))

/-! ## The spec's transaction-cost formula (claim C1)

Stated from the spec's words, to be compared with the code's
`simulate_rebalancing_impact`: the sum ranges over all asset classes
appearing in either the current or the proposed allocation. -/

/-- Per-class spec cost summed over an explicit key list. -/
def spec_cost_over (keys : List String) (current proposed : List (String × ℚ))
    (value : ℚ) : ℚ :=
  (keys.map (fun a =>
    |(proposed.lookup a).getD 0 - (current.lookup a).getD 0| / 100 * value * cost_rate a)).sum

/-- The spec's transaction cost: summed over the union of the key
sets. -/
def spec_transaction_cost (current proposed : List (String × ℚ)) (value : ℚ) : ℚ :=
  spec_cost_over ((proposed.map (fun a => a.1) ++ current.map (fun a => a.1)).dedup)
    current proposed value

/-! ## Concrete fixtures used by witnesses and counterexamples -/

/-- A concrete process-run environment: constant hash, a normal sampler
that returns an empty series (so every cumulative return is 0), first
fund chosen, clock at day 1, a calm sideways market snapshot. -/
def env₁ : Env :=
  { pyhash := fun _ => 0
    normal := fun _ _ _ _ => []
    choice := fun l => l.headD ""
    now := 1
    market := { volatility := 18, momentum := 1/100, trend := "sideways", correlation := 1/2 }
    data_source := "simulated"
    fmt_money := fun _ => ""
    fmt_pct := fun _ => ""
    fmt_conf := fun _ => "" }

/-- A portfolio holding a single Gold ETF fund worth 1000, with a
matching 100% target. -/
noncomputable def p_gold : Portfolio :=
  { client_id := "c1"
    allocation := [("Gold ETF", 100)]
    holdings := [{ asset_class := "Gold ETF", fund_name := "HDFC Gold ETF",
                   allocation_pct := 100, amount := 1000, units := 10, current_nav := 100 }]
    current_value := 1000
    expected_return := 8
    portfolio_risk := 0
    risk_score := 5
    sharpe_ratio := 0
    returns := 0
    created_date := 0 }

/-- A portfolio whose allocation is spread over twelve equity classes,
each at 25/3 percent (values in [0,100], summing to 100). -/
noncomputable def p_equity12 : Portfolio :=
  { client_id := "c2"
    allocation := [("Equity1", 25/3), ("Equity2", 25/3), ("Equity3", 25/3),
                   ("Equity4", 25/3), ("Equity5", 25/3), ("Equity6", 25/3),
                   ("Equity7", 25/3), ("Equity8", 25/3), ("Equity9", 25/3),
                   ("Equity10", 25/3), ("Equity11", 25/3), ("Equity12", 25/3)]
    holdings := []
    current_value := 0
    expected_return := 0
    portfolio_risk := 0
    risk_score := 0
    sharpe_ratio := 0
    returns := 0
    created_date := 0 }

/-- The drift report and refreshed portfolio that
`analyze_allocation_drift` produces on `p_gold` in `env₁`. -/
noncomputable def dr_gold : List (String × DriftInfo) × Portfolio :=
  ([("Gold ETF", { target_percentage := 100, current_percentage := 100,
                   drift_percentage := 0, drift_amount := 0 })],
   { p_gold with current_value := 1000 })

/-- A degenerate one-asset catalog whose only asset class has zero
risk, making the builder's portfolio risk zero. -/
def catalog_zero : List (String × AssetDetail) :=
  [("Cash", { ret := 7, risk := 0,
              alloc := [("Low", 100), ("Medium", 100), ("High", 100)] })]

/-- A portfolio holding one fund of an asset class unknown to
`asset_class_details`, so the correlation-based variance is zero. -/
noncomputable def p_cash : Portfolio :=
  { client_id := "c3"
    allocation := [("Cash", 100)]
    holdings := [{ asset_class := "Cash", fund_name := "Liquid Fund",
                   allocation_pct := 100, amount := 1000, units := 10, current_nav := 100 }]
    current_value := 1000
    expected_return := 0
    portfolio_risk := 0
    risk_score := 5
    sharpe_ratio := 0
    returns := 0
    created_date := 0 }

/-! ## Helper lemmas -/

/-- Lookup misses every key it differs from. -/
theorem lookup_none_of_forall {β : Type} (k : String) :
    ∀ l : List (String × β), (∀ p ∈ l, k ≠ p.1) → List.lookup k l = none
  | [], _ => rfl
  | (k', v) :: rest, h => by
    have hk : (k == k') = false :=
      beq_eq_false_iff_ne.mpr (h (k', v) (List.mem_cons_self _ _))
    simp only [List.lookup, hk]
    exact lookup_none_of_forall k rest (fun p hp => h p (List.mem_cons_of_mem _ hp))

/-- Summing `f x / t * c` over a list factors through the sum. -/
theorem sum_map_div_mul {α : Type} (l : List α) (f : α → ℚ) (t c : ℚ) :
    (l.map (fun x => f x / t * c)).sum = (l.map f).sum / t * c := by
  induction l with
  | nil => simp
  | cons a l ih => simp only [List.map_cons, List.sum_cons, ih]; ring

/-- Summing a pointwise difference splits. -/
theorem sum_map_sub {α : Type} (l : List α) (f g : α → ℚ) :
    (l.map (fun x => f x - g x)).sum = (l.map f).sum - (l.map g).sum := by
  induction l with
  | nil => simp
  | cons a l ih => simp only [List.map_cons, List.sum_cons, ih]; ring

/-- Summing a pointwise sum splits. -/
theorem sum_map_add {α : Type} (l : List α) (f g : α → ℚ) :
    (l.map (fun x => f x + g x)).sum = (l.map f).sum + (l.map g).sum := by
  induction l with
  | nil => simp
  | cons a l ih => simp only [List.map_cons, List.sum_cons, ih]; ring

/-- An indicator sum over a key that is absent vanishes. -/
theorem sum_indicator_not_mem (keys : List String) (x : String) (q : ℚ)
    (hx : x ∉ keys) : (keys.map (fun a => if x == a then q else 0)).sum = 0 := by
  induction keys with
  | nil => simp
  | cons k ks ih =>
    have hxk : x ≠ k := fun h => hx (h ▸ List.mem_cons_self _ _)
    have hb : (x == k) = false := beq_eq_false_iff_ne.mpr hxk
    simp only [List.map_cons, List.sum_cons, hb, if_false, Bool.false_eq_true]
    rw [ih (fun h => hx (List.mem_cons_of_mem _ h))]
    ring

/-- An indicator sum over a nodup key list containing the key picks out
the value. -/
theorem sum_indicator_mem (keys : List String) (x : String) (q : ℚ)
    (hnd : keys.Nodup) (hx : x ∈ keys) :
    (keys.map (fun a => if x == a then q else 0)).sum = q := by
  induction keys with
  | nil => cases hx
  | cons k ks ih =>
    rcases List.mem_cons.1 hx with h | h
    · subst h
      have hnot : x ∉ ks := (List.nodup_cons.1 hnd).1
      simp only [List.map_cons, List.sum_cons, beq_self_eq_true, if_true]
      rw [sum_indicator_not_mem ks x q hnot]
      ring
    · have hne : x ≠ k := by
        rintro rfl
        exact (List.nodup_cons.1 hnd).1 h
      have hb : (x == k) = false := beq_eq_false_iff_ne.mpr hne
      simp only [List.map_cons, List.sum_cons, hb, if_false, Bool.false_eq_true]
      rw [ih (List.nodup_cons.1 hnd).2 h]
      ring

/-- Renormalizing a list of percentages by its own (nonzero) total
makes it sum to 100. -/
theorem renormalized_sum (L : List (String × ℚ))
    (h : (L.map (fun av => av.2)).sum ≠ 0) :
    ((L.map (fun av => (av.1, av.2 / (L.map (fun av => av.2)).sum * 100))).map
      (fun ab => ab.2)).sum = 100 := by
  rw [List.map_map]
  have hc : ((fun ab : String × ℚ => ab.2) ∘
      (fun av : String × ℚ => (av.1, av.2 / (L.map (fun av => av.2)).sum * 100)))
      = fun av : String × ℚ => av.2 / (L.map (fun av => av.2)).sum * 100 := rfl
  rw [hc, sum_map_div_mul, div_self h, one_mul]

/-- Partitioning a value list by a nodup key list that covers every key
preserves the total. -/
theorem sum_filter_partition (values : List (String × ℚ)) (keys : List String)
    (hnd : keys.Nodup) (hcov : ∀ v ∈ values, v.1 ∈ keys) :
    (keys.map (fun a =>
      ((values.filter (fun v => v.1 == a)).map (fun v => v.2)).sum)).sum
      = (values.map (fun v => v.2)).sum := by
  induction values with
  | nil => simp
  | cons v vs ih =>
    have hsplit : ∀ a : String,
        (((v :: vs).filter (fun w => w.1 == a)).map (fun w => w.2)).sum
          = (if v.1 == a then v.2 else 0)
            + ((vs.filter (fun w => w.1 == a)).map (fun w => w.2)).sum := by
      intro a
      by_cases hb : (v.1 == a) = true
      · simp [List.filter_cons, hb]
      · simp [List.filter_cons, hb]
    calc (keys.map (fun a =>
            (((v :: vs).filter (fun w => w.1 == a)).map (fun w => w.2)).sum)).sum
        = (keys.map (fun a => (if v.1 == a then v.2 else 0)
            + ((vs.filter (fun w => w.1 == a)).map (fun w => w.2)).sum)).sum := by
          exact congrArg List.sum (List.map_congr_left (fun a _ => hsplit a))
      _ = (keys.map (fun a => if v.1 == a then v.2 else 0)).sum
          + (keys.map (fun a =>
              ((vs.filter (fun w => w.1 == a)).map (fun w => w.2)).sum)).sum :=
          sum_map_add keys _ _
      _ = v.2 + (vs.map (fun w => w.2)).sum := by
          rw [sum_indicator_mem keys v.1 v.2 hnd (hcov v (List.mem_cons_self _ _)),
            ih (fun w hw => hcov w (List.mem_cons_of_mem _ hw))]
      _ = ((v :: vs).map (fun w => w.2)).sum := by simp

/-- The current percentages (class value over total, times 100) summed
over a nodup key list covering every value's class equal 100. -/
theorem current_pct_total (alloc values : List (String × ℚ))
    (htot0 : (values.map (fun v => v.2)).sum ≠ 0)
    (hnd : (alloc.map (fun tp => tp.1)).Nodup)
    (hcov : ∀ v ∈ values, v.1 ∈ alloc.map (fun tp => tp.1)) :
    (alloc.map (fun tp =>
      ((values.filter (fun v => v.1 == tp.1)).map (fun v => v.2)).sum
        / (values.map (fun v => v.2)).sum * 100)).sum = 100 := by
  have h1 : alloc.map (fun tp =>
        ((values.filter (fun v => v.1 == tp.1)).map (fun v => v.2)).sum
          / (values.map (fun v => v.2)).sum * 100)
      = (alloc.map (fun tp => tp.1)).map (fun a =>
        ((values.filter (fun v => v.1 == a)).map (fun v => v.2)).sum
          / (values.map (fun v => v.2)).sum * 100) := by
    rw [List.map_map]
    rfl
  rw [h1, sum_map_div_mul (alloc.map (fun tp => tp.1))
    (fun a => ((values.filter (fun v => v.1 == a)).map (fun v => v.2)).sum)
    ((values.map (fun v => v.2)).sum) 100,
    sum_filter_partition values (alloc.map (fun tp => tp.1)) hnd hcov,
    div_self htot0, one_mul]

/-- The drift percentages (current minus target) over a covering nodup
allocation summing to 100 add up to 0. -/
theorem drift_pct_sum_zero (alloc values : List (String × ℚ))
    (htot0 : (values.map (fun v => v.2)).sum ≠ 0)
    (hnd : (alloc.map (fun tp => tp.1)).Nodup)
    (hcov : ∀ v ∈ values, v.1 ∈ alloc.map (fun tp => tp.1))
    (hsum : (alloc.map (fun tp => tp.2)).sum = 100) :
    (alloc.map (fun tp =>
      ((values.filter (fun v => v.1 == tp.1)).map (fun v => v.2)).sum
        / (values.map (fun v => v.2)).sum * 100 - tp.2)).sum = 0 := by
  rw [sum_map_sub alloc
    (fun tp => ((values.filter (fun v => v.1 == tp.1)).map (fun v => v.2)).sum
      / (values.map (fun v => v.2)).sum * 100)
    (fun tp => tp.2),
    current_pct_total alloc values htot0 hnd hcov, hsum]
  ring

/-! ## Claim theorems -/

/-- Claim C5: `_analyze_market_conditions` classifies the regime in the
fixed first-match order (volatile, then bull, then bear, then stable)
and returns confidence `min(0.95, 0.7 + |momentum| * 5 + (0.1 if trend
is not sideways else 0))`, for every indicator snapshot. -/
theorem market_condition_classification (md : MarketData) (ds : String) :
    ((analyze_market_conditions md ds).condition = "volatile_market" ↔
      25 < md.volatility) ∧
    ((analyze_market_conditions md ds).condition = "bull_market" ↔
      (¬ 25 < md.volatility ∧ (3/100 < md.momentum ∧ md.trend = "bullish"))) ∧
    ((analyze_market_conditions md ds).condition = "bear_market" ↔
      (¬ 25 < md.volatility ∧ ¬ (3/100 < md.momentum ∧ md.trend = "bullish") ∧
        (md.momentum < -(3/100) ∧ md.trend = "bearish"))) ∧
    ((analyze_market_conditions md ds).condition = "stable_market" ↔
      (¬ 25 < md.volatility ∧ ¬ (3/100 < md.momentum ∧ md.trend = "bullish") ∧
        ¬ (md.momentum < -(3/100) ∧ md.trend = "bearish"))) ∧
    (analyze_market_conditions md ds).confidence
      = min (95/100) (7/10 + |md.momentum| * 5
          + if md.trend ≠ "sideways" then 1/10 else 0) := by
  have hcond : (analyze_market_conditions md ds).condition =
      (if 25 < md.volatility then "volatile_market"
       else if 3/100 < md.momentum ∧ md.trend = "bullish" then "bull_market"
       else if md.momentum < -(3/100) ∧ md.trend = "bearish" then "bear_market"
       else "stable_market") := rfl
  have hconf : (analyze_market_conditions md ds).confidence =
      min (95/100) (7/10 + |md.momentum| * 5
        + if md.trend ≠ "sideways" then 1/10 else 0) := rfl
  simp only [hcond, hconf]
  refine ⟨?_, ?_, ?_, ?_, trivial⟩ <;> (split_ifs <;> simp_all)

/-- Claim C3 (counterexample): a portfolio with percentages in [0,100]
summing to 100 for which `calculate_optimal_allocation` returns no
mapping at all: under High risk tolerance and a bearish outlook every
adjusted percentage clamps to 0, the clamped total is 0, and the
renormalization divides by zero. -/
theorem optimal_allocation_sum_cex :
    (∀ ab ∈ p_equity12.allocation, 0 ≤ ab.2 ∧ ab.2 ≤ 100) ∧
    ((p_equity12.allocation.map (fun ab => ab.2)).sum = 100) ∧
    calculate_optimal_allocation p_equity12 "High" "bearish" = none := by
  refine ⟨by norm_num [p_equity12], by norm_num [p_equity12], ?_⟩
  have hrf : (risk_factors.lookup "High").getD 1 = 12/10 := rfl
  have hoa : (outlook_adjustments.lookup "bearish").getD ⟨0, 0, 0⟩ = ⟨-8, 5, 3⟩ := rfl
  have e1 : strContains "Equity1" "Equity" = true := rfl
  have e2 : strContains "Equity2" "Equity" = true := rfl
  have e3 : strContains "Equity3" "Equity" = true := rfl
  have e4 : strContains "Equity4" "Equity" = true := rfl
  have e5 : strContains "Equity5" "Equity" = true := rfl
  have e6 : strContains "Equity6" "Equity" = true := rfl
  have e7 : strContains "Equity7" "Equity" = true := rfl
  have e8 : strContains "Equity8" "Equity" = true := rfl
  have e9 : strContains "Equity9" "Equity" = true := rfl
  have e10 : strContains "Equity10" "Equity" = true := rfl
  have e11 : strContains "Equity11" "Equity" = true := rfl
  have e12 : strContains "Equity12" "Equity" = true := rfl
  simp only [calculate_optimal_allocation, p_equity12, hrf, hoa,
    e1, e2, e3, e4, e5, e6, e7, e8, e9, e10, e11, e12, if_true,
    List.map_cons, List.map_nil, List.sum_cons, List.sum_nil]
  split_ifs with h1 h2
  · norm_num at h1
  · rfl
  · norm_num at h2

/-- Claim C3 (amended): whenever `calculate_optimal_allocation` does
return a mapping (the clamped total is nonzero, so the renormalization
does not divide by zero), that mapping sums to exactly 100, for every
portfolio with percentages in [0,100] summing to 100 and every risk
tolerance and market outlook string. -/
theorem optimal_allocation_sums_to_100 (p : Portfolio) (rt mo : String)
    (out : List (String × ℚ))
    (hrange : ∀ ab ∈ p.allocation, 0 ≤ ab.2 ∧ ab.2 ≤ 100)
    (hsum : (p.allocation.map (fun ab => ab.2)).sum = 100)
    (hout : calculate_optimal_allocation p rt mo = some out) :
    (out.map (fun ab => ab.2)).sum = 100 := by
  simp only [calculate_optimal_allocation] at hout
  split_ifs at hout with h1 h2
  · obtain rfl := Option.some.inj hout
    exact h1
  · obtain rfl := Option.some.inj hout
    exact renormalized_sum _ h2

/-- Witness for claim C3 (amended): the gold-only portfolio with a
neutral outlook keeps its allocation, which sums to 100. -/
theorem optimal_allocation_sums_to_100_witness :
    (([("Gold ETF", (100:ℚ))]).map (fun ab => ab.2)).sum = 100 :=
  optimal_allocation_sums_to_100 p_gold "Medium" "neutral" [("Gold ETF", 100)]
    (by norm_num [p_gold]) (by norm_num [p_gold])
    (by
      have h1 : strContains "Gold ETF" "Equity" = false := rfl
      have h2 : strContains "Gold ETF" "Debt" = false := rfl
      have h3 : strContains "Gold ETF" "Gold" = true := rfl
      have hrf : (risk_factors.lookup "Medium").getD 1 = 1 := rfl
      have hoa : (outlook_adjustments.lookup "neutral").getD ⟨0, 0, 0⟩ = ⟨0, 0, 0⟩ := rfl
      simp only [calculate_optimal_allocation, p_gold, hrf, hoa, h1, h2, h3,
        List.map_cons, List.map_nil, List.sum_cons, List.sum_nil]
      norm_num)

/-- Claim C2 (counterexample): with risk tier Medium and amount 100000,
`create_portfolio` computes expected_return 10.7, not the 11.15 the
claim states (the claim's weighted-sum arithmetic is off: the terms sum
to 10.7). -/
theorem create_portfolio_medium_return_cex :
    (create_portfolio env₁ asset_classes ⟨"Client", "Medium", 100000⟩).toOption.map
      Portfolio.expected_return ≠ some (1115/100) := by
  have h : allocation_for asset_classes "Medium"
      = .ok [("Large Cap Equity", 35), ("Mid Cap Equity", 15), ("Small Cap Equity", 5),
             ("Debt Funds", 35), ("Gold ETF", 5), ("International Funds", 5)] := rfl
  simp only [create_portfolio]
  rw [h]
  simp only [Except.toOption, Option.map_some']
  simp [asset_classes, List.lookup]
  norm_num

/-- Claim C2 (amended): `create_portfolio` with risk tier Medium and
investment amount 100000 produces expected_return equal to the weighted
sum 0.35*12 + 0.15*15 + 0.05*18 + 0.35*7 + 0.05*8 + 0.05*10 = 10.7
(%), for every environment and client name. -/
theorem create_portfolio_medium_return (env : Env) (name : String) :
    (create_portfolio env asset_classes ⟨name, "Medium", 100000⟩).toOption.map
      Portfolio.expected_return = some (107/10) := by
  have h : allocation_for asset_classes "Medium"
      = .ok [("Large Cap Equity", 35), ("Mid Cap Equity", 15), ("Small Cap Equity", 5),
             ("Debt Funds", 35), ("Gold ETF", 5), ("International Funds", 5)] := rfl
  simp only [create_portfolio]
  rw [h]
  simp only [Except.toOption, Option.map_some']
  simp [asset_classes, List.lookup]
  norm_num

/-- Claim C4: `create_portfolio` fails with the validation error when
the client's risk appetite is none of Low, Medium, High; the failure
happens on the first catalog access, before any computation, so no
portfolio object is produced. -/
theorem create_portfolio_unknown_tier_error (env : Env) (c : ClientData)
    (h : c.risk_appetite ∉ (["Low", "Medium", "High"] : List String)) :
    create_portfolio env asset_classes c
      = .error "ValidationError: unknown risk tier" := by
  simp only [List.mem_cons, List.not_mem_nil, or_false, not_or] at h
  obtain ⟨h1, h2, h3⟩ := h
  have hl : List.lookup c.risk_appetite
      [("Low", (20:ℚ)), ("Medium", 35), ("High", 50)] = none := by
    apply lookup_none_of_forall
    intro p hp
    simp only [List.mem_cons, List.not_mem_nil, or_false] at hp
    rcases hp with rfl | rfl | rfl
    · exact h1
    · exact h2
    · exact h3
  simp [create_portfolio, allocation_for, asset_classes, hl]

/-- Witness for claim C4 at the concrete tier "Aggressive". -/
theorem create_portfolio_unknown_tier_error_witness :
    ("Aggressive" ∉ (["Low", "Medium", "High"] : List String)) ∧
    create_portfolio env₁ asset_classes ⟨"Client", "Aggressive", 50000⟩
      = .error "ValidationError: unknown risk tier" :=
  ⟨by decide, create_portfolio_unknown_tier_error env₁ _ (by decide)⟩

/-- Claim C8: drift analysis is deterministic per holding within a
process run: the cumulative return depends only on the fund name (which
fixes the seed), the asset class (which fixes the mean and volatility)
and the days elapsed, so two holdings agreeing on fund name, asset
class and invested amount get the same cumulative return and the same
current value. -/
theorem drift_deterministic_per_holding (env : Env) (h1 h2 : Holding) (days : ℕ)
    (hf : h1.fund_name = h2.fund_name) (ha : h1.asset_class = h2.asset_class)
    (hm : h1.amount = h2.amount) :
    holding_cumulative_return env h1 days = holding_cumulative_return env h2 days ∧
    holding_current_value env h1 days = holding_current_value env h2 days := by
  have hd : daily_returns_of env h1 days = daily_returns_of env h2 days := by
    simp only [daily_returns_of, fund_seed, hf, ha]
  have hc : holding_cumulative_return env h1 days
      = holding_cumulative_return env h2 days := by
    simp only [holding_cumulative_return, hd]
  exact ⟨hc, by simp only [holding_current_value, hm, hc]⟩

/-- Witness for claim C8: two concrete holdings differing only in their
stored allocation percentage agree on cumulative return and current
value. -/
theorem drift_deterministic_per_holding_witness :
    holding_cumulative_return env₁
        ⟨"Debt Funds", "HDFC Corporate Bond Fund", 50, 1000, 10, 100⟩ 3
      = holding_cumulative_return env₁
        ⟨"Debt Funds", "HDFC Corporate Bond Fund", 100, 1000, 10, 100⟩ 3 ∧
    holding_current_value env₁
        ⟨"Debt Funds", "HDFC Corporate Bond Fund", 50, 1000, 10, 100⟩ 3
      = holding_current_value env₁
        ⟨"Debt Funds", "HDFC Corporate Bond Fund", 100, 1000, 10, 100⟩ 3 :=
  drift_deterministic_per_holding env₁ _ _ 3 rfl rfl rfl

/-- Claim C9: the drift analysis leaves every portfolio field except
`current_value` unchanged: the portfolio object after the call
(`drift_post`) agrees with the input on client id, allocation,
holdings, expected return, portfolio risk, risk score, Sharpe ratio,
returns and creation date. -/
theorem drift_mutates_only_current_value (env : Env) (p : Portfolio) :
    (drift_post env p).client_id = p.client_id ∧
    (drift_post env p).allocation = p.allocation ∧
    (drift_post env p).holdings = p.holdings ∧
    (drift_post env p).expected_return = p.expected_return ∧
    (drift_post env p).portfolio_risk = p.portfolio_risk ∧
    (drift_post env p).risk_score = p.risk_score ∧
    (drift_post env p).sharpe_ratio = p.sharpe_ratio ∧
    (drift_post env p).returns = p.returns ∧
    (drift_post env p).created_date = p.created_date := by
  simp only [drift_post, analyze_allocation_drift]
  split <;> simp

/-- Claim C6: when every drift percentage is within the 5% threshold
in absolute value and the classified regime is `stable_market`, the
recommendation list is empty. -/
theorem recommendations_empty_when_calm (env : Env) (p : Portfolio)
    (dr : List (String × DriftInfo) × Portfolio)
    (ha : analyze_allocation_drift env p = some dr)
    (hd : ∀ ai ∈ dr.1, |ai.2.drift_percentage| ≤ 5)
    (hc : (analyze_market_conditions env.market env.data_source).condition
      = "stable_market") :
    get_rebalancing_recommendations env p = some [] := by
  unfold get_rebalancing_recommendations
  rw [ha]
  simp only [Option.map_some']
  have hf : dr.1.filter
      (fun ai => rebalancing_threshold < |ai.2.drift_percentage|) = [] := by
    rw [List.filter_eq_nil_iff]
    intro ai hai
    simp only [rebalancing_threshold, decide_eq_true_eq, not_lt]
    exact hd ai hai
  rw [hf]
  simp [market_based_recommendations, hc]

/-- Claim C10: for a non-empty holdings list whose asset classes all
appear among the (distinct) target-allocation keys, with target
percentages summing to 100, the drift report's drift percentages sum
to 0 and its drift amounts sum to 0. -/
theorem drift_report_mass_conservation (env : Env) (p : Portfolio)
    (dr : List (String × DriftInfo) × Portfolio)
    (hne : p.holdings ≠ [])
    (hcov : ∀ h ∈ p.holdings, h.asset_class ∈ p.allocation.map (fun tp => tp.1))
    (hnd : (p.allocation.map (fun tp => tp.1)).Nodup)
    (hsum : (p.allocation.map (fun tp => tp.2)).sum = 100)
    (ha : analyze_allocation_drift env p = some dr) :
    (dr.1.map (fun ai => ai.2.drift_percentage)).sum = 0 ∧
    (dr.1.map (fun ai => ai.2.drift_amount)).sum = 0 := by
  simp only [analyze_allocation_drift] at ha
  split_ifs at ha with hc
  obtain rfl := Option.some.inj ha
  push_neg at hc
  have htot0 : (List.map (fun v => v.2) (List.map (fun h => (h.asset_class,
      holding_current_value env h (days_since_creation env.now p.created_date).toNat))
        p.holdings)).sum ≠ 0 := hc hne
  have hcov' : ∀ v ∈ List.map (fun h => (h.asset_class,
      holding_current_value env h (days_since_creation env.now p.created_date).toNat))
        p.holdings, v.1 ∈ p.allocation.map (fun tp => tp.1) := by
    intro v hv
    obtain ⟨h, hh, rfl⟩ := List.mem_map.1 hv
    exact hcov h hh
  refine ⟨?_, ?_⟩
  · rw [List.map_map]
    simp only [Function.comp_def]
    exact drift_pct_sum_zero p.allocation _ htot0 hnd hcov' hsum
  · rw [List.map_map]
    simp only [Function.comp_def]
    rw [sum_map_div_mul]
    rw [drift_pct_sum_zero p.allocation _ htot0 hnd hcov' hsum]
    norm_num

/-- Witness for claim C10: on the single-holding gold portfolio the
drift report is a single zero-drift entry, summing to 0 both in
percentage and in amount. -/
theorem drift_report_mass_conservation_witness :
    (dr_gold.1.map (fun ai => ai.2.drift_percentage)).sum = 0 ∧
    (dr_gold.1.map (fun ai => ai.2.drift_amount)).sum = 0 :=
  drift_report_mass_conservation env₁ p_gold dr_gold
    (by simp [p_gold])
    (by simp [p_gold])
    (by simp [p_gold])
    (by norm_num [p_gold])
    (by norm_num [analyze_allocation_drift, p_gold, dr_gold, env₁, holding_current_value,
      holding_cumulative_return, daily_returns_of, days_since_creation, fund_seed])

/-- Witness for claim C6: the single-fund gold portfolio has zero
drift in the calm sideways market of `env₁`, and the recommendation
list is empty. -/
theorem recommendations_empty_when_calm_witness :
    get_rebalancing_recommendations env₁ p_gold = some [] :=
  recommendations_empty_when_calm env₁ p_gold dr_gold
    (by norm_num [analyze_allocation_drift, p_gold, dr_gold, env₁, holding_current_value,
      holding_cumulative_return, daily_returns_of, days_since_creation, fund_seed])
    (by norm_num [dr_gold])
    (by norm_num [analyze_market_conditions, env₁])

/-- Claim C1 (counterexample): on the gold-only portfolio with an
empty proposed allocation, the code's transaction cost is 0 — the loop
ranges over the proposed keys only — while the spec's union-ranging
formula gives 1 (the Gold ETF class of the current allocation, at
current value 1000 and default rate 0.1%, contributes
|0-100|/100*1000*0.001 = 1). -/
theorem transaction_cost_union_cex :
    (simulate_rebalancing_impact env₁ p_gold []).map Impact.transaction_cost = some 0 ∧
    ((analyze_allocation_drift env₁ p_gold).map (fun dr =>
      spec_transaction_cost (dr.1.map (fun ai => (ai.1, ai.2.current_percentage)))
        [] dr.2.current_value)) = some 1 ∧
    (0 : ℚ) ≠ 1 := by
  refine ⟨?_, ?_, by norm_num⟩
  · norm_num [simulate_rebalancing_impact, analyze_allocation_drift, p_gold, env₁,
      holding_current_value, holding_cumulative_return, daily_returns_of,
      days_since_creation]
  · have ha : analyze_allocation_drift env₁ p_gold = some dr_gold := by
      norm_num [analyze_allocation_drift, p_gold, dr_gold, env₁, holding_current_value,
        holding_cumulative_return, daily_returns_of, days_since_creation, fund_seed]
    rw [ha]
    simp only [Option.map_some']
    have hc : cost_rate "Gold ETF" = 1/1000 := rfl
    have hd : (([] : List String) ++ ["Gold ETF"]).dedup = ["Gold ETF"] := rfl
    norm_num [spec_transaction_cost, spec_cost_over, dr_gold, hc, hd, List.lookup]

/-- Claim C1 (amended): the transaction cost returned by
`simulate_rebalancing_impact` equals the spec's per-class formula
|proposed% - current%| / 100 x current value x cost rate summed over
the asset classes of the PROPOSED allocation only; classes appearing
only in the current allocation contribute nothing. -/
theorem transaction_cost_sums_over_proposed (env : Env) (p : Portfolio)
    (proposed : List (String × ℚ)) (dr : List (String × DriftInfo) × Portfolio)
    (ha : analyze_allocation_drift env p = some dr)
    (hnd : (proposed.map (fun pr => pr.1)).Nodup) :
    (simulate_rebalancing_impact env p proposed).map Impact.transaction_cost
      = some (spec_cost_over (proposed.map (fun pr => pr.1))
          (dr.1.map (fun ai => (ai.1, ai.2.current_percentage))) proposed
          dr.2.current_value) := by
  simp only [simulate_rebalancing_impact]
  rw [ha]
  simp only [Option.map_some']
  congr 1
  simp only [spec_cost_over, List.map_map]
  rfl

/-- Witness for claim C1 (amended): moving 50% into Debt Funds from
the gold-only portfolio costs 50/100 x 1000 x 0.05% on the one
proposed class. -/
theorem transaction_cost_sums_over_proposed_witness :
    (simulate_rebalancing_impact env₁ p_gold [("Debt Funds", 50)]).map
        Impact.transaction_cost
      = some (spec_cost_over ([("Debt Funds", (50:ℚ))].map (fun pr => pr.1))
          (dr_gold.1.map (fun ai => (ai.1, ai.2.current_percentage)))
          [("Debt Funds", 50)] dr_gold.2.current_value) :=
  transaction_cost_sums_over_proposed env₁ p_gold [("Debt Funds", 50)] dr_gold
    (by norm_num [analyze_allocation_drift, p_gold, dr_gold, env₁, holding_current_value,
      holding_cumulative_return, daily_returns_of, days_since_creation, fund_seed])
    (by simp)

/-- Claim C7: whenever a computed portfolio risk is zero the Sharpe
ratio is 0 rather than a division: in `create_portfolio` (over any
instance catalog) a zero portfolio risk yields sharpe_ratio 0, and in
`simulate_rebalancing_impact` a zero current (resp. new) risk yields
current (resp. new) Sharpe 0; each division is guarded by a
positivity test, so no division by zero is performed. -/
theorem sharpe_zero_when_risk_zero :
    (∀ (env : Env) (catalog : List (String × AssetDetail)) (c : ClientData),
      (create_portfolio env catalog c).map Portfolio.portfolio_risk = .ok 0 →
      (create_portfolio env catalog c).map Portfolio.sharpe_ratio = .ok 0) ∧
    (∀ (env : Env) (p : Portfolio) (proposed : List (String × ℚ)),
      (simulate_rebalancing_impact env p proposed).map Impact.current_risk = some 0 →
      (simulate_rebalancing_impact env p proposed).map Impact.current_sharpe = some 0) ∧
    (∀ (env : Env) (p : Portfolio) (proposed : List (String × ℚ)),
      (simulate_rebalancing_impact env p proposed).map Impact.new_risk = some 0 →
      (simulate_rebalancing_impact env p proposed).map Impact.new_sharpe = some 0) := by
  refine ⟨?_, ?_, ?_⟩
  · intro env catalog c h
    simp only [create_portfolio] at h ⊢
    cases haf : allocation_for catalog c.risk_appetite with
    | error e =>
      rw [haf] at h
      simp [Except.map] at h
    | ok alloc =>
      rw [haf] at h
      simp only [Except.map, Except.ok.injEq] at h ⊢
      rw [h]
      simp
  · intro env p proposed h
    simp only [simulate_rebalancing_impact] at h ⊢
    cases ha : analyze_allocation_drift env p with
    | none =>
      rw [ha] at h
      simp at h
    | some dr =>
      rw [ha] at h
      simp only [Option.map_some', Option.some.injEq] at h ⊢
      rw [h]
      simp
  · intro env p proposed h
    simp only [simulate_rebalancing_impact] at h ⊢
    cases ha : analyze_allocation_drift env p with
    | none =>
      rw [ha] at h
      simp at h
    | some dr =>
      rw [ha] at h
      simp only [Option.map_some', Option.some.injEq] at h ⊢
      rw [h]
      simp

/-- Witness for claim C7: a zero-risk catalog gives a zero Sharpe in
the builder, and a proposal over an unknown asset class gives zero
current and new risk and hence zero Sharpe in the simulator. -/
theorem sharpe_zero_when_risk_zero_witness :
    ((create_portfolio env₁ catalog_zero ⟨"Client", "Medium", 1000⟩).map
        Portfolio.sharpe_ratio = .ok 0) ∧
    ((simulate_rebalancing_impact env₁ p_cash [("Cash", 100)]).map
        Impact.current_sharpe = some 0) ∧
    ((simulate_rebalancing_impact env₁ p_cash [("Cash", 100)]).map
        Impact.new_sharpe = some 0) :=
  ⟨sharpe_zero_when_risk_zero.1 env₁ catalog_zero ⟨"Client", "Medium", 1000⟩
    (by
      have h : allocation_for catalog_zero "Medium" = .ok [("Cash", 100)] := rfl
      simp only [create_portfolio]
      rw [h]
      simp only [Except.map, Except.ok.injEq, catalog_zero, List.map_cons, List.map_nil,
        List.lookup, List.sum_cons, List.sum_nil]
      norm_num),
   sharpe_zero_when_risk_zero.2.1 env₁ p_cash [("Cash", 100)]
    (by
      simp [simulate_rebalancing_impact, analyze_allocation_drift, p_cash, env₁,
        holding_current_value, holding_cumulative_return, daily_returns_of,
        days_since_creation, calculate_portfolio_risk, portfolio_variance,
        asset_class_details, List.lookup]),
   sharpe_zero_when_risk_zero.2.2 env₁ p_cash [("Cash", 100)]
    (by
      simp [simulate_rebalancing_impact, analyze_allocation_drift, p_cash, env₁,
        holding_current_value, holding_cumulative_return, daily_returns_of,
        days_since_creation, calculate_portfolio_risk, portfolio_variance,
        asset_class_details, List.lookup])⟩

end Robo
